import Mathlib

/-!
Verification of the coval-examples repository against its specification.

The repository consists of standalone example scripts calling a REST API.
The verified claims concern three pieces of logic:
  * `transform_vapi_transcript` in `upload-conversations/vapi_upload.py`
    (the Transcript Mapper);
  * `launch_run` / `get_run_status` / the polling loop of `main` in
    `launch-runs/launch_run.py` (the Submission Client and Status Poller);
  * the placeholder configuration guards at the top of both `main`
    functions.

Modelling decisions:
  * Python dictionaries with a known key set are modelled as structures
    with `Option` fields; `dict.get(k, d)` becomes `Option.getD`.
  * Python floats (`secondsFromStart`, the duration arithmetic) are
    modelled as exact rationals `Rat`; every numeric value appearing in
    the claims is exactly representable in both.
  * The network is external: the outcome of each HTTP request (a status
    code with a parsed body and raw text, a timeout, or a request
    exception) is an input to the function that makes the request.
  * `print` side effects are modelled, where a claim refers to them, as a
    returned list of output lines; Python f-strings become string
    concatenation.
-/

/-- A Vapi message record (`msg` in `transform_vapi_transcript`): a JSON
dictionary whose relevant keys are `role`, `message`, `secondsFromStart`,
`duration` and `time`; each key may be absent (the code reads them with
`msg.get`). -/
structure VapiMsg where
  role : Option String
  message : Option String
  secondsFromStart : Option Rat
  duration : Option Rat
  time : Option Rat
deriving DecidableEq, Repr

/-- A Coval transcript entry as built by `transform_vapi_transcript`
(lines 116 to 124 of `vapi_upload.py`): keys `role`, `content`,
`start_time`, `end_time`, and `timestamp` present exactly when the
source message had a `time` key. -/
structure CovalEntry where
  role : String
  content : String
  start_time : Rat
  end_time : Rat
  timestamp : Option Rat
deriving DecidableEq, Repr

/-- The role reversal mapping of `vapi_upload.py` lines 100 to 109:
`"user"` to `"assistant"`, `"bot"` to `"user"`, `"system"` to
`"system"`, anything else unrecognized (`none`, the `continue`
branch). -/
def covalRoleOf (vapi_role : String) : Option String :=
  if vapi_role = "user" then some "assistant"
  else if vapi_role = "bot" then some "user"
  else if vapi_role = "system" then some "system"
  else none

/-- Entry construction for a recognized role, `vapi_upload.py` lines 111
to 124: `start_time` is `msg.get` of `secondsFromStart` with default
`0.0`, `duration_ms` is `msg.get` of `duration` with default `0`,
`end_time` is `start_time + duration_ms / 1000.0`; `timestamp` is set
only when `time` is a key of `msg`. -/
def mkEntry (coval_role : String) (msg : VapiMsg) : CovalEntry :=
  let start_time := msg.secondsFromStart.getD 0
  let duration_ms := msg.duration.getD 0
  let duration_seconds := duration_ms / 1000
  let end_time := start_time + duration_seconds
  { role := coval_role
    content := msg.message.getD ""
    start_time := start_time
    end_time := end_time
    timestamp := msg.time }

/-- One iteration of the loop body of `transform_vapi_transcript`:
`none` models the `continue` branch taken on an unrecognized role
(`vapi_role` is `msg.get` of `role` with default the empty string). -/
def transformMsg (msg : VapiMsg) : Option CovalEntry :=
  match covalRoleOf (msg.role.getD "") with
  | none => none
  | some coval_role => some (mkEntry coval_role msg)

/-- `transform_vapi_transcript` (`vapi_upload.py` lines 79 to 130): the
loop over `vapi_messages` appending one entry per recognized role and
skipping the rest. -/
def transform_vapi_transcript : List VapiMsg → List CovalEntry
  | [] => []
  | msg :: rest =>
    match transformMsg msg with
    | none => transform_vapi_transcript rest
    | some entry => entry :: transform_vapi_transcript rest

/-- The three-message example input of spec section 8: roles `user`,
`bot`, `alien` with messages `hi`, `hello`, `?`. -/
def exampleMessages : List VapiMsg :=
  [ { role := some "user", message := some "hi",
      secondsFromStart := some 1, duration := some 500, time := none }
  , { role := some "bot", message := some "hello",
      secondsFromStart := some 2, duration := some 1000, time := none }
  , { role := some "alien", message := some "?",
      secondsFromStart := none, duration := none, time := none } ]

/-- A record is recognized when its role (default empty) is one of the
three keys of the mapping table. -/
def recognizedRole (m : VapiMsg) : Bool :=
  m.role.getD "" == "user" || m.role.getD "" == "bot"
    || m.role.getD "" == "system"

/-- The translation applied to a recognized record: the entry built from
the mapped role. (On an unrecognized record the `getD` default is never
reached by the theorems below.) -/
def translateMsg (m : VapiMsg) : CovalEntry :=
  mkEntry ((covalRoleOf (m.role.getD "")).getD "") m

/-- Reinterpretation of a produced Coval entry as a Vapi input record,
as described by spec section 8: the output fed back in, treated as
already-target-schema input under the same mapping table. An entry
carries no `duration` key. -/
def entryAsVapiMsg (e : CovalEntry) : VapiMsg :=
  { role := some e.role
    message := some e.content
    secondsFromStart := some e.start_time
    duration := none
    time := e.timestamp }

/- ======================= launch_run.py model ======================= -/

/-- The parsed `run` object of a runs-API JSON response body
(`result.get` of `run`): keys `run_id`, `status`, `create_time`. -/
structure RunObj where
  run_id : Option String
  status : Option String
  create_time : Option String
deriving DecidableEq, Repr

/-- The parsed JSON body of a runs-API response; the code reads
`result.get` of `run` with an empty dictionary as default. -/
structure RunsBody where
  run : Option RunObj
deriving DecidableEq, Repr

/-- The `run` object defaulted to when the body has no `run` key: the
empty dictionary, every further `get` returning `None`. -/
def emptyRunObj : RunObj :=
  { run_id := none, status := none, create_time := none }

/-- Outcome of one HTTP request made through the `requests` library
against the runs API: a response with a status code, parsed JSON body
and raw text; a `requests.exceptions.Timeout`; or another
`requests.exceptions.RequestException`. -/
inductive HttpOutcome where
  | response (status_code : Nat) (body : RunsBody) (text : String)
  | timeout
  | requestException (err : String)
deriving DecidableEq, Repr

/-- Python `str` of an optional string, as interpolated by the f-string
prints: `None` for a missing value. -/
def optionStr (o : Option String) : String := o.getD "None"

/-- `API_TIMEOUT` constant of `launch_run.py` line 27. -/
def API_TIMEOUT : Nat := 30

/-- `launch_run` (`launch_run.py` lines 32 to 94), with the POST
abstracted by its outcome `resp`. Returns the run id result (the Python
return value: the `run_id` field on HTTP 200, `None` otherwise) paired
with the list of printed lines. The function performs exactly one
request per call: no retry exists in the code, which is why the model
consumes exactly one `HttpOutcome`. Payload construction (lines 53 to
61) has no bearing on the return value and is not modelled. -/
def launch_run (agent_id persona_id test_set_id : String)
    (resp : HttpOutcome) : Option String × List String :=
  let pre : List String :=
    [ "Launching simulation run..."
    , "Agent ID: " ++ agent_id
    , "Persona ID: " ++ persona_id
    , "Test Set ID: " ++ test_set_id ]
  match resp with
  | .response status_code body text =>
    if status_code = 200 then
      let run := body.run.getD emptyRunObj
      let run_id := run.run_id
      let status := run.status
      let create_time := run.create_time
      (run_id, pre ++
        [ "\nRun launched successfully"
        , "Run ID: " ++ optionStr run_id
        , "Status: " ++ optionStr status
        , "Created: " ++ optionStr create_time
        , "View at: https://app.coval.dev/runs/" ++ optionStr run_id ])
    else
      (none, pre ++
        [ "\nFailed to launch run: " ++ toString status_code
        , "Response: " ++ text ])
  | .timeout =>
    (none, pre ++
      [ "\nError: Request timed out after " ++ toString API_TIMEOUT
          ++ " seconds" ])
  | .requestException e =>
    (none, pre ++ [ "\nError launching run: " ++ e ])

/-- `get_run_status` (`launch_run.py` lines 97 to 127), with the GET
abstracted by its outcome: the `status` field of the `run` object on
HTTP 200, `None` on a non-200 status, timeout or request exception. -/
def get_run_status (resp : HttpOutcome) : Option String :=
  match resp with
  | .response status_code body _ =>
    if status_code = 200 then (body.run.getD emptyRunObj).status
    else none
  | .timeout => none
  | .requestException _ => none

/-- The terminal status list of `launch_run.py` line 169. -/
def TERMINAL_STATUSES : List String := ["COMPLETED", "FAILED", "CANCELLED"]

/-- `POLL_INTERVAL_SECONDS` constant of `launch_run.py` line 29. -/
def POLL_INTERVAL_SECONDS : Nat := 5

/-- Observable trace of the monitoring loop: number of `get_run_status`
queries issued, number of `time.sleep` calls (each of
`POLL_INTERVAL_SECONDS`), and the terminal status the loop finished
with (`none` when the loop broke because a query returned a falsy
status, that is `None` or the empty string). -/
structure PollTrace where
  queries : Nat
  sleeps : Nat
  finished : Option String
deriving DecidableEq, Repr

/-- The monitoring loop of `main` (`launch_run.py` lines 161 to 173).
Each element of the input list is the outcome of the next status GET,
in order. The Python loop is unbounded (`while True`); a finite list
models a finite prefix of the available query outcomes, and every claim
below concerns executions that halt within their list, so the `[]` case
(loop still running) is never reached by the theorems. -/
def poll_loop : List HttpOutcome → PollTrace
  | [] => { queries := 0, sleeps := 0, finished := none }
  | r :: rest =>
    match get_run_status r with
    | none => { queries := 1, sleeps := 0, finished := none }
    | some status =>
      if status = "" then { queries := 1, sleeps := 0, finished := none }
      else if status ∈ TERMINAL_STATUSES then
        { queries := 1, sleeps := 0, finished := some status }
      else
        let t := poll_loop rest
        { queries := t.queries + 1, sleeps := t.sleeps + 1,
          finished := t.finished }

/-- Observable trace of `main` in `launch_run.py`: the `sys.exit` code
(`none` for a normal return), the number of HTTP requests issued, and
the terminal status reached by the monitoring loop, if any. -/
structure LaunchMainTrace where
  exit_code : Option Nat
  network_calls : Nat
  finished : Option String
deriving DecidableEq, Repr

/-- The `main` function of `launch_run.py` (lines 130 to 173): the four
placeholder guards, then `launch_run` (one POST), then the monitoring
loop (one GET per iteration). The POST outcome and the successive GET
outcomes are inputs. A falsy `run_id` (`None` or empty) exits with
code 1. -/
def launch_main (coval_api_key agent_id persona_id test_set_id : String)
    (post : HttpOutcome) (polls : List HttpOutcome) : LaunchMainTrace :=
  if coval_api_key = "your_coval_api_key" then
    { exit_code := some 1, network_calls := 0, finished := none }
  else if agent_id = "your_agent_id" then
    { exit_code := some 1, network_calls := 0, finished := none }
  else if persona_id = "your_persona_id" then
    { exit_code := some 1, network_calls := 0, finished := none }
  else if test_set_id = "your_test_set_id" then
    { exit_code := some 1, network_calls := 0, finished := none }
  else
    match (launch_run agent_id persona_id test_set_id post).1 with
    | none => { exit_code := some 1, network_calls := 1, finished := none }
    | some run_id =>
      if run_id = "" then
        { exit_code := some 1, network_calls := 1, finished := none }
      else
        let t := poll_loop polls
        { exit_code := none, network_calls := 1 + t.queries,
          finished := t.finished }

/- ======================= vapi_upload.py main ======================= -/

/-- The Vapi call data consumed by `main` of `vapi_upload.py`; only the
fields the verified claims depend on are modelled (`status`,
`messages`). -/
structure VapiCall where
  status : Option String
  messages : List VapiMsg
deriving DecidableEq, Repr

/-- Outcome of the GET against the Vapi calls API. -/
inductive VapiHttpOutcome where
  | response (status_code : Nat) (body : VapiCall) (text : String)
  | timeout
  | requestException (err : String)
deriving DecidableEq, Repr

/-- `get_vapi_call` (`vapi_upload.py` lines 39 to 76): the parsed call
data on HTTP 200, `None` on any other status, timeout or request
exception. -/
def get_vapi_call (resp : VapiHttpOutcome) : Option VapiCall :=
  match resp with
  | .response status_code body _ =>
    if status_code = 200 then some body else none
  | .timeout => none
  | .requestException _ => none

/-- The `conversation` object of a Coval upload response body. -/
structure CovalConversation where
  conversation_id : Option String
  status : Option String
deriving DecidableEq, Repr

/-- The parsed JSON body of a Coval upload response. -/
structure CovalUploadBody where
  conversation : Option CovalConversation
deriving DecidableEq, Repr

/-- Outcome of the POST against the Coval conversations API. -/
inductive CovalHttpOutcome where
  | response (status_code : Nat) (body : CovalUploadBody) (text : String)
  | timeout
  | requestException (err : String)
deriving DecidableEq, Repr

/-- `upload_to_coval` (`vapi_upload.py` lines 133 to 206), with the POST
abstracted by its outcome: the parsed body on HTTP 200, `None`
otherwise. Payload construction does not affect the return value and is
not modelled. -/
def upload_to_coval (resp : CovalHttpOutcome) : Option CovalUploadBody :=
  match resp with
  | .response status_code body _ =>
    if status_code = 200 then some body else none
  | .timeout => none
  | .requestException _ => none

/-- Observable trace of `main` in `vapi_upload.py`: the `sys.exit` code
(`none` for a normal return) and the number of HTTP requests issued. -/
structure VapiMainTrace where
  exit_code : Option Nat
  network_calls : Nat
deriving DecidableEq, Repr

/-- The `main` function of `vapi_upload.py` (lines 209 to 238): the
three placeholder guards, then `get_vapi_call` (one GET), the transcript
transformation, then `upload_to_coval` (one POST). The two request
outcomes are inputs. (The Python falsiness of an entirely empty
call-data dictionary, and the warning printed on an empty message list,
change nothing observable here: both paths submit the transcript
computed from the message list, which is empty exactly when the list
is.) -/
def vapi_main (vapi_api_key coval_api_key call_id : String)
    (callResp : VapiHttpOutcome) (upResp : CovalHttpOutcome) :
    VapiMainTrace :=
  if vapi_api_key = "your_vapi_api_key" then
    { exit_code := some 1, network_calls := 0 }
  else if coval_api_key = "your_coval_api_key" then
    { exit_code := some 1, network_calls := 0 }
  else if call_id = "your_vapi_call_id" then
    { exit_code := some 1, network_calls := 0 }
  else
    match get_vapi_call callResp with
    | none => { exit_code := some 1, network_calls := 1 }
    | some call_data =>
      let _transcript := transform_vapi_transcript call_data.messages
      match upload_to_coval upResp with
      | none => { exit_code := some 1, network_calls := 2 }
      | some _ => { exit_code := none, network_calls := 2 }

/-- A mocked 200 status-query response whose `run` object carries the
given status (used by the concrete polling scenarios). -/
def statusResp (st : String) : HttpOutcome :=
  HttpOutcome.response 200
    { run := some { run_id := some "r1", status := some st,
                    create_time := none } } ""

/- =========================== Theorems ============================= -/

/-- C1: the Transcript Mapper assigns the target role by the fixed
reversal table (`user` to `assistant`, `bot` to `user`, `system` to
`system`), and on the three-message example input of spec section 8 it
produces exactly the two entries `assistant`/`hi` and `user`/`hello`,
dropping the third record. -/
theorem transcript_role_reversal :
    (∀ m : VapiMsg, m.role = some "user" →
      Option.map CovalEntry.role (transformMsg m) = some "assistant")
    ∧ (∀ m : VapiMsg, m.role = some "bot" →
      Option.map CovalEntry.role (transformMsg m) = some "user")
    ∧ (∀ m : VapiMsg, m.role = some "system" →
      Option.map CovalEntry.role (transformMsg m) = some "system")
    ∧ transform_vapi_transcript exampleMessages =
      [ { role := "assistant", content := "hi", start_time := 1,
          end_time := 3/2, timestamp := none }
      , { role := "user", content := "hello", start_time := 2,
          end_time := 3, timestamp := none } ] := by
  refine ⟨?_, ?_, ?_, ?_⟩
  · intro m h; simp [transformMsg, covalRoleOf, mkEntry, h]
  · intro m h; simp [transformMsg, covalRoleOf, mkEntry, h]
  · intro m h; simp [transformMsg, covalRoleOf, mkEntry, h]
  · simp [transform_vapi_transcript, transformMsg, covalRoleOf, mkEntry,
      exampleMessages]
    norm_num

/-- Witness for C1 at concrete inputs: each hypothesis discharged at a
record with the stated role. -/
theorem transcript_role_reversal_witness :
    Option.map CovalEntry.role (transformMsg
      { role := some "user", message := none, secondsFromStart := none,
        duration := none, time := none }) = some "assistant"
    ∧ Option.map CovalEntry.role (transformMsg
      { role := some "bot", message := none, secondsFromStart := none,
        duration := none, time := none }) = some "user"
    ∧ Option.map CovalEntry.role (transformMsg
      { role := some "system", message := none, secondsFromStart := none,
        duration := none, time := none }) = some "system" :=
  ⟨transcript_role_reversal.1 _ rfl,
   transcript_role_reversal.2.1 _ rfl,
   transcript_role_reversal.2.2.1 _ rfl⟩

/-- C2: the Transcript Mapper keeps exactly the records whose role is
`user`, `bot` or `system`, translating each in input order (so the
output is the translation of the recognized sublist), and the output is
never longer than the input; unrecognized records are skipped without
aborting the rest. -/
theorem transcript_filter_shape (msgs : List VapiMsg) :
    transform_vapi_transcript msgs
      = (msgs.filter recognizedRole).map translateMsg
    ∧ (transform_vapi_transcript msgs).length ≤ msgs.length := by
  induction msgs with
  | nil => simp [transform_vapi_transcript]
  | cons m rest ih =>
    obtain ⟨ih1, ih2⟩ := ih
    by_cases hu : m.role.getD "" = "user"
    · refine ⟨?_, ?_⟩
      · simp [transform_vapi_transcript, transformMsg, covalRoleOf, hu,
          recognizedRole, translateMsg, ih1]
      · simp only [transform_vapi_transcript, transformMsg, covalRoleOf,
          hu, if_pos, List.length_cons]
        exact Nat.succ_le_succ ih2
    · by_cases hb : m.role.getD "" = "bot"
      · refine ⟨?_, ?_⟩
        · simp [transform_vapi_transcript, transformMsg, covalRoleOf, hu,
            hb, recognizedRole, translateMsg, ih1]
        · simp only [transform_vapi_transcript, transformMsg, covalRoleOf,
            hu, hb, if_neg, if_pos, List.length_cons]
          exact Nat.succ_le_succ ih2
      · by_cases hs : m.role.getD "" = "system"
        · refine ⟨?_, ?_⟩
          · simp [transform_vapi_transcript, transformMsg, covalRoleOf,
              hu, hb, hs, recognizedRole, translateMsg, ih1]
          · simp only [transform_vapi_transcript, transformMsg,
              covalRoleOf, hu, hb, hs, if_neg, if_pos, List.length_cons]
            exact Nat.succ_le_succ ih2
        · refine ⟨?_, ?_⟩
          · simp [transform_vapi_transcript, transformMsg, covalRoleOf,
              hu, hb, hs, recognizedRole, translateMsg, ih1]
          · simp only [transform_vapi_transcript, transformMsg,
              covalRoleOf, hu, hb, hs, if_neg, List.length_cons]
            exact Nat.le_succ_of_le ih2

/-- C3: every produced entry has `start_time` equal to the source
`secondsFromStart` unchanged and `end_time` equal to `start_time` plus
the source `duration` divided by 1000; in particular `secondsFromStart`
2.0 with `duration` 1000 yields start 2.0 and end 3.0. -/
theorem transcript_timing :
    (∀ (m : VapiMsg) (e : CovalEntry) (s d : Rat),
      transformMsg m = some e → m.secondsFromStart = some s →
      m.duration = some d →
      e.start_time = s ∧ e.end_time = e.start_time + d / 1000)
    ∧ transformMsg
        { role := some "bot", message := some "hello",
          secondsFromStart := some 2, duration := some 1000, time := none }
      = some { role := "user", content := "hello", start_time := 2,
               end_time := 3, timestamp := none } := by
  constructor
  · intro m e s d hme hs hd
    unfold transformMsg at hme
    cases hcr : covalRoleOf (m.role.getD "") with
    | none => rw [hcr] at hme; cases hme
    | some c =>
      rw [hcr] at hme
      injection hme with he
      subst he
      simp [mkEntry, hs, hd]
  · simp [transformMsg, covalRoleOf, mkEntry]
    norm_num

/-- Witness for C3: the general timing law applied to the concrete
`bot`/`hello` record, its first hypothesis discharged by the concrete
evaluation proved in the theorem itself. -/
theorem transcript_timing_witness :
    ({ role := "user", content := "hello", start_time := 2,
       end_time := 3, timestamp := none } : CovalEntry).start_time = 2
    ∧ ({ role := "user", content := "hello", start_time := 2,
         end_time := 3, timestamp := none } : CovalEntry).end_time
      = ({ role := "user", content := "hello", start_time := 2,
           end_time := 3, timestamp := none } : CovalEntry).start_time
        + 1000 / 1000 :=
  transcript_timing.1
    { role := some "bot", message := some "hello",
      secondsFromStart := some 2, duration := some 1000, time := none }
    _ 2 1000 transcript_timing.2 rfl rfl

/-- C10: the mapper is total over records with missing keys: a record
with no `role` key is skipped as unrecognized; a recognized record with
no `secondsFromStart` key gets `start_time` 0; one with no `duration`
key gets `end_time` equal to `start_time`. No input aborts the
transformation (the Lean model is a total function). -/
theorem transcript_missing_fields :
    (∀ m : VapiMsg, m.role = none → transformMsg m = none)
    ∧ (∀ (m : VapiMsg) (e : CovalEntry), transformMsg m = some e →
        m.secondsFromStart = none → e.start_time = 0)
    ∧ (∀ (m : VapiMsg) (e : CovalEntry), transformMsg m = some e →
        m.duration = none → e.end_time = e.start_time) := by
  refine ⟨?_, ?_, ?_⟩
  · intro m h
    simp [transformMsg, covalRoleOf, h]
  · intro m e hme hs
    unfold transformMsg at hme
    cases hcr : covalRoleOf (m.role.getD "") with
    | none => rw [hcr] at hme; cases hme
    | some c =>
      rw [hcr] at hme
      injection hme with he
      subst he
      simp [mkEntry, hs]
  · intro m e hme hd
    unfold transformMsg at hme
    cases hcr : covalRoleOf (m.role.getD "") with
    | none => rw [hcr] at hme; cases hme
    | some c =>
      rw [hcr] at hme
      injection hme with he
      subst he
      simp [mkEntry, hd]

/-- Witness for C10 at concrete records: a record with no role is
dropped; a `user` record with no timing keys yields start 0 and end
equal to start. -/
theorem transcript_missing_fields_witness :
    transformMsg
      { role := none, message := some "x", secondsFromStart := none,
        duration := none, time := none } = none
    ∧ (mkEntry "assistant"
        { role := some "user", message := some "x",
          secondsFromStart := none, duration := none,
          time := none }).start_time = 0
    ∧ (mkEntry "assistant"
        { role := some "user", message := some "x",
          secondsFromStart := none, duration := none,
          time := none }).end_time
      = (mkEntry "assistant"
        { role := some "user", message := some "x",
          secondsFromStart := none, duration := none,
          time := none }).start_time :=
  ⟨transcript_missing_fields.1 _ rfl,
   transcript_missing_fields.2.1
     { role := some "user", message := some "x",
       secondsFromStart := none, duration := none, time := none }
     _ rfl rfl,
   transcript_missing_fields.2.2
     { role := some "user", message := some "x",
       secondsFromStart := none, duration := none, time := none }
     _ rfl rfl⟩

/-- C8: the Transcript Mapper is not idempotent under the same mapping
table: there is an input on which re-running the mapper on its own
output (reinterpreted as input records) differs from running it once.
Concretely, a single `user` record maps to an `assistant` entry, which
the second run drops. -/
theorem transcript_not_idempotent :
    ∃ msgs : List VapiMsg,
      transform_vapi_transcript
          ((transform_vapi_transcript msgs).map entryAsVapiMsg)
        ≠ transform_vapi_transcript msgs := by
  refine ⟨[{ role := some "user", message := some "hi",
             secondsFromStart := none, duration := none,
             time := none }], ?_⟩
  simp [transform_vapi_transcript, transformMsg, covalRoleOf, mkEntry,
    entryAsVapiMsg]

/-- C4: on an HTTP 200 response whose body carries the created resource
under the `run` key, `launch_run` returns the run id and reports the
status among its printed lines; in particular a body with run id `r1`
and status `QUEUED` yields the identifier `r1`. -/
theorem launch_run_success (a p t : String) (body : RunsBody)
    (txt : String) (robj : RunObj) (rid st : String)
    (hrun : body.run = some robj) (hid : robj.run_id = some rid)
    (hst : robj.status = some st) :
    (launch_run a p t (.response 200 body txt)).1 = some rid
    ∧ ("Status: " ++ st)
        ∈ (launch_run a p t (.response 200 body txt)).2 := by
  constructor
  · simp [launch_run, hrun, hid]
  · simp [launch_run, optionStr, hrun, hst]

/-- Witness for C4: the mock body of spec section 8, run id `r1`,
status `QUEUED`. -/
theorem launch_run_success_witness :
    (launch_run "a" "p" "t" (.response 200
        { run := some { run_id := some "r1", status := some "QUEUED",
                        create_time := none } } "")).1 = some "r1"
    ∧ ("Status: " ++ "QUEUED")
        ∈ (launch_run "a" "p" "t" (.response 200
            { run := some { run_id := some "r1", status := some "QUEUED",
                            create_time := none } } "")).2 :=
  launch_run_success "a" "p" "t" _ ""
    { run_id := some "r1", status := some "QUEUED", create_time := none }
    "r1" "QUEUED" rfl rfl rfl

/-- C5: on any non-200 response, timeout, or request exception,
`launch_run` returns no identifier. The model consumes exactly one
request outcome per call: the code contains no retry. -/
theorem launch_run_failure (a p t : String) (resp : HttpOutcome)
    (h : ∀ (body : RunsBody) (txt : String),
      resp ≠ .response 200 body txt) :
    (launch_run a p t resp).1 = none := by
  cases resp with
  | response sc body txt =>
    have hsc : sc ≠ 200 := by
      intro hh
      subst hh
      exact h body txt rfl
    simp [launch_run, hsc]
  | timeout => simp [launch_run]
  | requestException e => simp [launch_run]

/-- Witness for C5: an HTTP 500 response yields no identifier. -/
theorem launch_run_failure_witness :
    (launch_run "a" "p" "t" (.response 500 { run := none } "err")).1
      = none :=
  launch_run_failure "a" "p" "t" _ (by
    intro body txt hh
    simp at hh)

/-- C6: the poller issues one status query per loop iteration with one
fixed-interval sleep between consecutive queries, and halts at the
first query whose status is terminal, reporting that status: after any
prefix of non-terminal successful queries, a terminal answer ends the
loop with exactly one more query, regardless of any further available
outcomes. -/
theorem poll_halts_at_first_terminal (pre : List HttpOutcome)
    (r : HttpOutcome) (rest : List HttpOutcome) (t : String)
    (hpre : ∀ x ∈ pre, ∃ s, get_run_status x = some s ∧ s ≠ ""
      ∧ s ∉ TERMINAL_STATUSES)
    (hr : get_run_status r = some t) (ht : t ∈ TERMINAL_STATUSES) :
    poll_loop (pre ++ r :: rest)
      = { queries := pre.length + 1, sleeps := pre.length,
          finished := some t } := by
  induction pre with
  | nil =>
    have ht' : t ≠ "" := by
      intro hh
      subst hh
      revert ht
      decide
    simp [poll_loop, hr, ht', ht]
  | cons x xs ih =>
    obtain ⟨s, hs, hne, hnt⟩ := hpre x (by simp)
    have hrec := ih (fun y hy => hpre y (by simp [hy]))
    simp [poll_loop, hs, hne, hnt, hrec]

/-- Witness for C6: the mocked sequence QUEUED, RUNNING, COMPLETED
performs exactly three queries (two sleeps) and reports COMPLETED. -/
theorem poll_halts_at_first_terminal_witness :
    poll_loop [statusResp "QUEUED", statusResp "RUNNING",
        statusResp "COMPLETED"]
      = { queries := 3, sleeps := 2, finished := some "COMPLETED" } :=
  poll_halts_at_first_terminal
    [statusResp "QUEUED", statusResp "RUNNING"]
    (statusResp "COMPLETED")
    [] "COMPLETED"
    (by
      intro x hx
      simp only [List.mem_cons, List.not_mem_nil, or_false] at hx
      rcases hx with h | h <;> subst h
      · exact ⟨"QUEUED", rfl, by decide, by decide⟩
      · exact ⟨"RUNNING", rfl, by decide, by decide⟩)
    rfl (by decide)

/-- C7: when a query fails (non-200, timeout, or request exception,
all of which make `get_run_status` return no status), the poller stops
at that query, performing no further queries whatever outcomes remain
available, and finishes with no terminal status reported. -/
theorem poll_stops_on_failed_query (pre : List HttpOutcome)
    (r : HttpOutcome) (rest : List HttpOutcome)
    (hpre : ∀ x ∈ pre, ∃ s, get_run_status x = some s ∧ s ≠ ""
      ∧ s ∉ TERMINAL_STATUSES)
    (hr : get_run_status r = none) :
    poll_loop (pre ++ r :: rest)
      = { queries := pre.length + 1, sleeps := pre.length,
          finished := none } := by
  induction pre with
  | nil => simp [poll_loop, hr]
  | cons x xs ih =>
    obtain ⟨s, hs, hne, hnt⟩ := hpre x (by simp)
    have hrec := ih (fun y hy => hpre y (by simp [hy]))
    simp [poll_loop, hs, hne, hnt, hrec]

/-- Witness for C7: a timeout on the second query ends polling after
exactly two queries, even though a third outcome is available. -/
theorem poll_stops_on_failed_query_witness :
    poll_loop [statusResp "QUEUED", HttpOutcome.timeout,
        statusResp "COMPLETED"]
      = { queries := 2, sleeps := 1, finished := none } :=
  poll_stops_on_failed_query
    [statusResp "QUEUED"]
    HttpOutcome.timeout
    [statusResp "COMPLETED"]
    (by
      intro x hx
      simp only [List.mem_cons, List.not_mem_nil, or_false] at hx
      subst hx
      exact ⟨"QUEUED", rfl, by decide, by decide⟩)
    rfl

/-- C9: in both scripts, a required identifier or API key left at its
placeholder value makes `main` exit with code 1 before issuing any
network request. -/
theorem placeholder_guard :
    (∀ (k a p t : String) (post : HttpOutcome)
        (polls : List HttpOutcome),
      (k = "your_coval_api_key" ∨ a = "your_agent_id"
        ∨ p = "your_persona_id" ∨ t = "your_test_set_id") →
      launch_main k a p t post polls
        = { exit_code := some 1, network_calls := 0, finished := none })
    ∧ (∀ (vk ck cid : String) (cr : VapiHttpOutcome)
        (ur : CovalHttpOutcome),
      (vk = "your_vapi_api_key" ∨ ck = "your_coval_api_key"
        ∨ cid = "your_vapi_call_id") →
      vapi_main vk ck cid cr ur
        = { exit_code := some 1, network_calls := 0 }) := by
  constructor
  · intro k a p t post polls h
    unfold launch_main
    split_ifs with h1 h2 h3 h4
    · rfl
    · rfl
    · rfl
    · rfl
    · rcases h with h | h | h | h
      · exact absurd h h1
      · exact absurd h h2
      · exact absurd h h3
      · exact absurd h h4
  · intro vk ck cid cr ur h
    unfold vapi_main
    split_ifs with h1 h2 h3
    · rfl
    · rfl
    · rfl
    · rcases h with h | h | h
      · exact absurd h h1
      · exact absurd h h2
      · exact absurd h h3

/-- Witness for C9: each script with its first key at the placeholder
halts with exit code 1 and zero network calls. -/
theorem placeholder_guard_witness :
    launch_main "your_coval_api_key" "a" "p" "t" HttpOutcome.timeout []
      = { exit_code := some 1, network_calls := 0, finished := none }
    ∧ vapi_main "your_vapi_api_key" "c" "i" VapiHttpOutcome.timeout
        CovalHttpOutcome.timeout
      = { exit_code := some 1, network_calls := 0 } :=
  ⟨placeholder_guard.1 _ _ _ _ _ _ (Or.inl rfl),
   placeholder_guard.2 _ _ _ _ _ (Or.inl rfl)⟩
